import Mathlib

/-!
Shallow embedding of `src/homework.py`, a fitness-tracker calculator with a
small class hierarchy (`Training` with variants `Running`, `SportsWalking`,
`Swimming`), an `InfoMessage` formatter and a dispatch-by-code `read_package`.

Modelling choices:
* Python floats are modelled as exact rationals (`ℚ`); no rounding happens
  before formatting, matching the source, and all constants (0.65, 1.38,
  1.79, 0.278, 0.035, 0.029, 1.1) are exact decimal fractions.
* A `raise` is modelled as `Except.error` carrying a `PyError` value that
  records the Python exception class and message.
* Dynamic dispatch over the class hierarchy is modelled by a sum type
  `Training` with one constructor per class (including the bare base class,
  which Python allows to be instantiated), and the overridable methods
  (`LEN_STEP`, `get_mean_speed`, `get_spent_calories`, the class name) match
  on the constructor exactly as Python method-resolution would pick the
  override.
* The `"{x:.3f}"` format specifier is modelled by `formatFix3`, fixed-point
  rendering with exactly three digits after the decimal point (rounding to
  the nearest thousandth, which agrees with the double rounding of the
  source on all inputs considered here).
-/

namespace Homework

/-- The Python exception classes raised by the program. -/
inductive PyError where
  | valueError : String → PyError
  | typeError : String → PyError
  | notImplementedError : String → PyError
  deriving DecidableEq, Repr

/-- The fields shared by every training class: `action` (step/stroke count),
`duration` (hours) and `weight` (kg), set by `Training.__init__`. -/
structure TrainingBase where
  action : ℚ
  duration : ℚ
  weight : ℚ
  deriving DecidableEq, Repr

/-- The class hierarchy of `homework.py` as a sum type: the bare base class
`Training` plus the three concrete subclasses with their extra fields
(`SportsWalking.height`; `Swimming.length_pool` and `Swimming.count_pool`). -/
inductive Training where
  | base : TrainingBase → Training
  | running : TrainingBase → Training
  | sportsWalking : TrainingBase → ℚ → Training
  | swimming : TrainingBase → ℚ → ℚ → Training
  deriving DecidableEq, Repr

/-- The shared fields of a training value, whichever class it belongs to. -/
def Training.core : Training → TrainingBase
  | .base b => b
  | .running b => b
  | .sportsWalking b _ => b
  | .swimming b _ _ => b

/-- `Training.M_IN_KM = 1000`. -/
def M_IN_KM : ℚ := 1000

/-- `Training.MIN_IN_HOUR = 60`. -/
def MIN_IN_HOUR : ℚ := 60

/-- `LEN_STEP`: 0.65 on the base class, overridden to 1.38 by `Swimming`. -/
def Training.LEN_STEP : Training → ℚ
  | .swimming _ _ _ => 138 / 100
  | _ => 65 / 100

/-- `self.__class__.__name__`, as used by `show_training_info` and by the
error message of the abstract `get_spent_calories`. -/
def Training.class_name : Training → String
  | .base _ => "Training"
  | .running _ => "Running"
  | .sportsWalking _ _ => "SportsWalking"
  | .swimming _ _ _ => "Swimming"

/-- `Training.get_distance`: `action * LEN_STEP / M_IN_KM` (not overridden;
`Swimming` only changes the `LEN_STEP` constant it reads). -/
def Training.get_distance (t : Training) : ℚ :=
  t.core.action * t.LEN_STEP / M_IN_KM

/-- `get_mean_speed`: the base `get_distance() / duration`, overridden by
`Swimming` to `length_pool * count_pool / M_IN_KM / duration`. -/
def Training.get_mean_speed : Training → ℚ
  | .swimming b lp cp => lp * cp / M_IN_KM / b.duration
  | t => t.get_distance / t.core.duration

/-- `Running.CALORIES_MEAN_SPEED_MULTIPLIER = 18`. -/
def CALORIES_MEAN_SPEED_MULTIPLIER : ℚ := 18

/-- `Running.CALORIES_MEAN_SPEED_SHIFT = 1.79`. -/
def CALORIES_MEAN_SPEED_SHIFT : ℚ := 179 / 100

/-- `SportsWalking.COEF_KMH_MS = 0.278`. -/
def COEF_KMH_MS : ℚ := 278 / 1000

/-- `SportsWalking.WEIGHT_COEF1 = 0.035`. -/
def WEIGHT_COEF1 : ℚ := 35 / 1000

/-- `SportsWalking.WEIGHT_COEF2 = 0.029`. -/
def WEIGHT_COEF2 : ℚ := 29 / 1000

/-- `SportsWalking.M_TO_SM = 100`. -/
def M_TO_SM : ℚ := 100

/-- `Swimming.SWIM_CONST1 = 1.1`. -/
def SWIM_CONST1 : ℚ := 11 / 10

/-- `Swimming.SWIM_CONST2 = 2`. -/
def SWIM_CONST2 : ℚ := 2

/-- `get_spent_calories`: on the bare base class it raises
`NotImplementedError`; each concrete class overrides it with its formula. -/
def Training.get_spent_calories : Training → Except PyError ℚ
  | .base b =>
      .error (.notImplementedError
        ("Метод get_spent_calories не был переопределен в классе "
          ++ (Training.base b).class_name))
  | .running b =>
      .ok ((CALORIES_MEAN_SPEED_MULTIPLIER * (Training.running b).get_mean_speed
              + CALORIES_MEAN_SPEED_SHIFT)
            * b.weight / M_IN_KM * b.duration * MIN_IN_HOUR)
  | .sportsWalking b h =>
      .ok ((WEIGHT_COEF1 * b.weight
              + (((Training.sportsWalking b h).get_mean_speed * COEF_KMH_MS) ^ 2
                  / (h / M_TO_SM)) * WEIGHT_COEF2 * b.weight)
            * b.duration * MIN_IN_HOUR)
  | .swimming b lp cp =>
      .ok (((Training.swimming b lp cp).get_mean_speed + SWIM_CONST1)
            * SWIM_CONST2 * b.weight * b.duration)

/-- The `InfoMessage` dataclass (its five data fields). -/
structure InfoMessage where
  training_type : String
  duration : ℚ
  distance : ℚ
  speed : ℚ
  calories : ℚ
  deriving DecidableEq, Repr

/-- The integer nearest to `q * 1000` (ties upward): the value whose digits a
`"{q:.3f}"` fixed-point rendering displays. -/
def scaled3 (q : ℚ) : ℤ :=
  Int.floor (q * 1000 + 1 / 2)

/-- Decimal digit rendering, fuel-based so that it is structurally
recursive (the fuel `natDigits` passes always suffices). -/
def natDigitsAux : ℕ → ℕ → List Char
  | 0, _ => []
  | fuel + 1, n =>
    if n < 10 then [Nat.digitChar n]
    else natDigitsAux fuel (n / 10) ++ [Nat.digitChar (n % 10)]

/-- Decimal digit list of a natural number, most significant first. -/
def natDigits (n : ℕ) : List Char :=
  natDigitsAux (n + 1) n

/-- A natural number below 1000 rendered as exactly three decimal digits. -/
def pad3 (k : ℕ) : String :=
  String.mk [Nat.digitChar (k / 100), Nat.digitChar (k / 10 % 10), Nat.digitChar (k % 10)]

/-- Fixed-point rendering with three digits after the decimal point, the
model of Python string formatting with the `:.3f` specifier. -/
def formatFix3 (q : ℚ) : String :=
  (if scaled3 q < 0 then "-" else "")
    ++ String.mk (natDigits ((scaled3 q).natAbs / 1000))
    ++ "." ++ pad3 ((scaled3 q).natAbs % 1000)

/-- `InfoMessage.get_message`: the `MESSAGE` template of the source with the
five fields substituted, the numeric ones through the `:.3f` specifier. -/
def InfoMessage.get_message (m : InfoMessage) : String :=
  "Тип тренировки: " ++ m.training_type
    ++ "; Длительность: " ++ formatFix3 m.duration
    ++ " ч.; Дистанция: " ++ formatFix3 m.distance
    ++ " км; Ср. скорость: " ++ formatFix3 m.speed
    ++ " км/ч; Потрачено ккал: " ++ formatFix3 m.calories ++ "."

/-- `Training.show_training_info`: assembles the `InfoMessage` from the class
name, the duration and the three (possibly overridden) calculations.  It
propagates the `NotImplementedError` of the abstract `get_spent_calories`. -/
def Training.show_training_info (t : Training) : Except PyError InfoMessage :=
  (t.get_spent_calories).map (fun c =>
    ⟨t.class_name, t.core.duration, t.get_distance, t.get_mean_speed, c⟩)

/-- `read_package`: dispatches the three-letter code through the
`workout_dict` table, raising `ValueError` on an unknown code, and unpacks
the positional argument list into the chosen constructor (a wrong arity is a
`TypeError` at the call, as in Python). -/
def read_package (workout_type : String) (data : List ℚ) : Except PyError Training :=
  if workout_type = "SWM" then
    match data with
    | [a, d, w, lp, cp] => .ok (.swimming ⟨a, d, w⟩ lp cp)
    | _ => .error (.typeError "Swimming: несоответствие числа аргументов")
  else if workout_type = "RUN" then
    match data with
    | [a, d, w] => .ok (.running ⟨a, d, w⟩)
    | _ => .error (.typeError "Running: несоответствие числа аргументов")
  else if workout_type = "WLK" then
    match data with
    | [a, d, w, h] => .ok (.sportsWalking ⟨a, d, w⟩ h)
    | _ => .error (.typeError "SportsWalking: несоответствие числа аргументов")
  else .error (.valueError ("Неизвестный тип тренировки: " ++ workout_type))

/-- The line `main` prints for one training value. -/
def main_line (t : Training) : Except PyError String :=
  (t.show_training_info).map InfoMessage.get_message

/-- One full iteration of the driver loop: dispatch, summarise, format. -/
def pipeline (workout_type : String) (data : List ℚ) : Except PyError String :=
  (read_package workout_type data).bind main_line

/-- The fixed `packages` list of the `__main__` driver. -/
def packages : List (String × List ℚ) :=
  [("SWM", [720, 1, 80, 25, 40]),
   ("RUN", [15000, 1, 75]),
   ("WLK", [9000, 1, 75, 180])]

/-- `s` consists of an integer part free of the decimal point, then the
point, then exactly three decimal digit characters that end the string: the
shape of a fixed-point numeral with exactly three decimal places. -/
def threeDecimals (s : String) : Prop :=
  ∃ ip d1 d2 d3, s = ip ++ "." ++ String.mk [d1, d2, d3] ∧
    (∀ c ∈ ip.data, c ≠ '.') ∧
    d1.isDigit = true ∧ d2.isDigit = true ∧ d3.isDigit = true

lemma digitChar_isDigit {n : ℕ} (h : n < 10) : (Nat.digitChar n).isDigit = true := by
  interval_cases n <;> decide

lemma isDigit_ne_dot {c : Char} (h : c.isDigit = true) : c ≠ '.' := by
  intro hc
  subst hc
  exact absurd h (by decide)

lemma natDigitsAux_isDigit (fuel : ℕ) :
    ∀ n, ∀ c ∈ natDigitsAux fuel n, c.isDigit = true := by
  induction fuel with
  | zero =>
    intro n c hc
    exact absurd hc (List.not_mem_nil c)
  | succ fuel ih =>
    intro n c hc
    rw [natDigitsAux] at hc
    split at hc
    · rcases List.mem_singleton.mp hc with rfl
      exact digitChar_isDigit (by omega)
    · rcases List.mem_append.mp hc with h1 | h2
      · exact ih (n / 10) c h1
      · rcases List.mem_singleton.mp h2 with rfl
        exact digitChar_isDigit (Nat.mod_lt _ (by omega))

lemma natDigits_isDigit (n : ℕ) : ∀ c ∈ natDigits n, c.isDigit = true :=
  natDigitsAux_isDigit (n + 1) n

lemma formatFix3_threeDecimals (q : ℚ) : threeDecimals (formatFix3 q) := by
  refine ⟨(if scaled3 q < 0 then "-" else "")
      ++ String.mk (natDigits ((scaled3 q).natAbs / 1000)),
    Nat.digitChar ((scaled3 q).natAbs % 1000 / 100),
    Nat.digitChar ((scaled3 q).natAbs % 1000 / 10 % 10),
    Nat.digitChar ((scaled3 q).natAbs % 1000 % 10), rfl, ?_, ?_, ?_, ?_⟩
  · intro c hc
    rw [String.data_append] at hc
    rcases List.mem_append.mp hc with h1 | h2
    · split at h1
      · rcases List.mem_singleton.mp h1 with rfl
        decide
      · exact absurd h1 (List.not_mem_nil c)
    · exact isDigit_ne_dot (natDigits_isDigit _ c h2)
  · exact digitChar_isDigit (by omega)
  · exact digitChar_isDigit (by omega)
  · exact digitChar_isDigit (by omega)

lemma formatFix3_eval (q : ℚ) (n : ℤ) (h : scaled3 q = n) :
    formatFix3 q = (if n < 0 then "-" else "")
      ++ String.mk (natDigits (n.natAbs / 1000)) ++ "." ++ pad3 (n.natAbs % 1000) := by
  rw [formatFix3, h]

lemma formatFix3_one : formatFix3 1 = "1.000" := by
  rw [formatFix3_eval 1 1000 (by unfold scaled3; norm_num)]
  decide

lemma formatFix3_run_distance : formatFix3 (39 / 4) = "9.750" := by
  rw [formatFix3_eval (39 / 4) 9750 (by unfold scaled3; norm_num)]
  decide

lemma formatFix3_run_calories : formatFix3 (159561 / 200) = "797.805" := by
  rw [formatFix3_eval (159561 / 200) 797805 (by unfold scaled3; norm_num)]
  decide

lemma run_info_eval : (Training.running ⟨15000, 1, 75⟩).show_training_info
    = Except.ok ⟨"Running", 1, 39 / 4, 39 / 4, 159561 / 200⟩ := by
  simp [Training.show_training_info, Training.get_spent_calories,
    Training.get_mean_speed, Training.get_distance, Training.LEN_STEP,
    Training.core, Training.class_name, M_IN_KM, MIN_IN_HOUR,
    CALORIES_MEAN_SPEED_MULTIPLIER, CALORIES_MEAN_SPEED_SHIFT, Except.map]
  norm_num

lemma run_message_eval :
    InfoMessage.get_message ⟨"Running", 1, 39 / 4, 39 / 4, 159561 / 200⟩
      = "Тип тренировки: Running; Длительность: 1.000 ч.; Дистанция: 9.750 км; Ср. скорость: 9.750 км/ч; Потрачено ккал: 797.805." := by
  rw [InfoMessage.get_message]
  rw [show (InfoMessage.mk "Running" 1 (39 / 4) (39 / 4) (159561 / 200)).duration = 1 from rfl]
  rw [show (InfoMessage.mk "Running" 1 (39 / 4) (39 / 4) (159561 / 200)).distance = 39 / 4 from rfl]
  rw [show (InfoMessage.mk "Running" 1 (39 / 4) (39 / 4) (159561 / 200)).speed = 39 / 4 from rfl]
  rw [show (InfoMessage.mk "Running" 1 (39 / 4) (39 / 4) (159561 / 200)).calories = 159561 / 200 from rfl]
  rw [formatFix3_one, formatFix3_run_distance, formatFix3_run_calories]
  decide

/-- C1: for every Running record built from `(action, duration, weight)` with
`duration > 0`, `get_distance` is `action * 0.65 / 1000` (that is,
`action * 0.00065`), `get_mean_speed` is `get_distance / duration`, and
`get_spent_calories` is `(18 * get_mean_speed + 1.79) * weight / 1000 *
duration * 60`. -/
theorem running_formulas (a d w : ℚ) (hd : 0 < d) :
    (Training.running ⟨a, d, w⟩).get_distance = a * (65 / 100) / 1000 ∧
    (Training.running ⟨a, d, w⟩).get_distance = a * (65 / 100000) ∧
    (Training.running ⟨a, d, w⟩).get_mean_speed
      = (Training.running ⟨a, d, w⟩).get_distance / d ∧
    (Training.running ⟨a, d, w⟩).get_spent_calories
      = Except.ok ((18 * (Training.running ⟨a, d, w⟩).get_mean_speed + 179 / 100)
          * w / 1000 * d * 60) := by
  refine ⟨rfl, ?_, rfl, rfl⟩
  show a * (65 / 100) / 1000 = a * (65 / 100000)
  ring

theorem running_formulas_witness :
    (0 : ℚ) < 1 ∧
    ((Training.running ⟨15000, 1, 75⟩).get_distance = 15000 * (65 / 100) / 1000 ∧
     (Training.running ⟨15000, 1, 75⟩).get_distance = 15000 * (65 / 100000) ∧
     (Training.running ⟨15000, 1, 75⟩).get_mean_speed
       = (Training.running ⟨15000, 1, 75⟩).get_distance / 1 ∧
     (Training.running ⟨15000, 1, 75⟩).get_spent_calories
       = Except.ok ((18 * (Training.running ⟨15000, 1, 75⟩).get_mean_speed + 179 / 100)
           * 75 / 1000 * 1 * 60)) :=
  ⟨by norm_num, running_formulas 15000 1 75 (by norm_num)⟩

/-- C2: for every Swimming record with `duration > 0`, `get_mean_speed` is
`length_pool * count_pool / 1000 / duration`, it does not depend on
`action`, and `get_distance` is `action * 1.38 / 1000` (that is,
`action * 0.00138`). -/
theorem swimming_formulas (a d w lp cp : ℚ) (hd : 0 < d) :
    (Training.swimming ⟨a, d, w⟩ lp cp).get_mean_speed = lp * cp / 1000 / d ∧
    (∀ a2 : ℚ, (Training.swimming ⟨a2, d, w⟩ lp cp).get_mean_speed
        = (Training.swimming ⟨a, d, w⟩ lp cp).get_mean_speed) ∧
    (Training.swimming ⟨a, d, w⟩ lp cp).get_distance = a * (138 / 100) / 1000 ∧
    (Training.swimming ⟨a, d, w⟩ lp cp).get_distance = a * (138 / 100000) := by
  refine ⟨rfl, fun a2 => rfl, rfl, ?_⟩
  show a * (138 / 100) / 1000 = a * (138 / 100000)
  ring

theorem swimming_formulas_witness :
    (0 : ℚ) < 1 ∧
    ((Training.swimming ⟨720, 1, 80⟩ 25 40).get_mean_speed = 25 * 40 / 1000 / 1 ∧
     (∀ a2 : ℚ, (Training.swimming ⟨a2, 1, 80⟩ 25 40).get_mean_speed
         = (Training.swimming ⟨720, 1, 80⟩ 25 40).get_mean_speed) ∧
     (Training.swimming ⟨720, 1, 80⟩ 25 40).get_distance = 720 * (138 / 100) / 1000 ∧
     (Training.swimming ⟨720, 1, 80⟩ 25 40).get_distance = 720 * (138 / 100000)) :=
  ⟨by norm_num, swimming_formulas 720 1 80 25 40 (by norm_num)⟩

/-- C3: for every SportsWalking record with `duration > 0` and `height > 0`,
`get_spent_calories` is `(0.035 * weight + (v ^ 2 / h) * 0.029 * weight) *
duration * 60` where `v = get_mean_speed * 0.278` and `h = height / 100`. -/
theorem sportsWalking_calories_formula (a d w ht : ℚ) (hd : 0 < d) (hh : 0 < ht) :
    (Training.sportsWalking ⟨a, d, w⟩ ht).get_spent_calories
      = Except.ok ((35 / 1000 * w
          + (((Training.sportsWalking ⟨a, d, w⟩ ht).get_mean_speed * (278 / 1000)) ^ 2
              / (ht / 100)) * (29 / 1000) * w) * d * 60) :=
  rfl

theorem sportsWalking_calories_formula_witness :
    (0 : ℚ) < 1 ∧ (0 : ℚ) < 180 ∧
    (Training.sportsWalking ⟨9000, 1, 75⟩ 180).get_spent_calories
      = Except.ok ((35 / 1000 * 75
          + (((Training.sportsWalking ⟨9000, 1, 75⟩ 180).get_mean_speed * (278 / 1000)) ^ 2
              / (180 / 100)) * (29 / 1000) * 75) * 1 * 60) :=
  ⟨by norm_num, by norm_num,
    sportsWalking_calories_formula 9000 1 75 180 (by norm_num) (by norm_num)⟩

/-- C4: `read_package` on any code other than `"SWM"`, `"RUN"`, `"WLK"`
raises the unknown-workout-type `ValueError` for every argument list, and
never returns a record. -/
theorem read_package_unknown_code (code : String) (data : List ℚ)
    (h1 : code ≠ "SWM") (h2 : code ≠ "RUN") (h3 : code ≠ "WLK") :
    read_package code data
        = Except.error (.valueError ("Неизвестный тип тренировки: " ++ code)) ∧
    ∀ t : Training, read_package code data ≠ Except.ok t := by
  have he : read_package code data
      = Except.error (.valueError ("Неизвестный тип тренировки: " ++ code)) := by
    unfold read_package
    rw [if_neg h1, if_neg h2, if_neg h3]
  refine ⟨he, fun t hcontra => ?_⟩
  rw [he] at hcontra
  exact Except.noConfusion hcontra

theorem read_package_unknown_code_witness :
    ("XYZ" : String) ≠ "SWM" ∧ ("XYZ" : String) ≠ "RUN" ∧ ("XYZ" : String) ≠ "WLK" ∧
    (read_package "XYZ" [720, 1, 80]
        = Except.error (.valueError ("Неизвестный тип тренировки: " ++ "XYZ")) ∧
     ∀ t : Training, read_package "XYZ" [720, 1, 80] ≠ Except.ok t) :=
  ⟨by decide, by decide, by decide,
    read_package_unknown_code "XYZ" [720, 1, 80] (by decide) (by decide) (by decide)⟩

/-- C5: every summary's `get_message` is exactly the template string with the
four numeric fields rendered fixed-point with exactly three decimal digits,
and `training_type` is the class name of the record it came from. -/
theorem infoMessage_format (t : Training) (m : InfoMessage)
    (h : t.show_training_info = Except.ok m) :
    m.training_type = t.class_name ∧
    m.get_message = "Тип тренировки: " ++ m.training_type
      ++ "; Длительность: " ++ formatFix3 m.duration
      ++ " ч.; Дистанция: " ++ formatFix3 m.distance
      ++ " км; Ср. скорость: " ++ formatFix3 m.speed
      ++ " км/ч; Потрачено ккал: " ++ formatFix3 m.calories ++ "." ∧
    threeDecimals (formatFix3 m.duration) ∧
    threeDecimals (formatFix3 m.distance) ∧
    threeDecimals (formatFix3 m.speed) ∧
    threeDecimals (formatFix3 m.calories) := by
  rw [Training.show_training_info] at h
  cases hc : t.get_spent_calories with
  | error e =>
    rw [hc] at h
    exact absurd h (by simp [Except.map])
  | ok c =>
    rw [hc] at h
    simp only [Except.map] at h
    injection h with h
    subst h
    exact ⟨rfl, rfl, formatFix3_threeDecimals _, formatFix3_threeDecimals _,
      formatFix3_threeDecimals _, formatFix3_threeDecimals _⟩

theorem infoMessage_format_witness :
    (Training.running ⟨15000, 1, 75⟩).show_training_info
        = Except.ok ⟨"Running", 1, 39 / 4, 39 / 4, 159561 / 200⟩ ∧
    ((⟨"Running", 1, 39 / 4, 39 / 4, 159561 / 200⟩ : InfoMessage).training_type
        = (Training.running ⟨15000, 1, 75⟩).class_name ∧
     (⟨"Running", 1, 39 / 4, 39 / 4, 159561 / 200⟩ : InfoMessage).get_message
        = "Тип тренировки: "
          ++ (⟨"Running", 1, 39 / 4, 39 / 4, 159561 / 200⟩ : InfoMessage).training_type
          ++ "; Длительность: " ++ formatFix3 1
          ++ " ч.; Дистанция: " ++ formatFix3 (39 / 4)
          ++ " км; Ср. скорость: " ++ formatFix3 (39 / 4)
          ++ " км/ч; Потрачено ккал: " ++ formatFix3 (159561 / 200) ++ "." ∧
     threeDecimals (formatFix3 1) ∧
     threeDecimals (formatFix3 (39 / 4)) ∧
     threeDecimals (formatFix3 (39 / 4)) ∧
     threeDecimals (formatFix3 (159561 / 200))) :=
  ⟨run_info_eval, infoMessage_format (Training.running ⟨15000, 1, 75⟩)
    ⟨"Running", 1, 39 / 4, 39 / 4, 159561 / 200⟩ run_info_eval⟩

/-- C6 counterexample: on input `("RUN", [15000, 1, 75])` the record's
calories are 797.805 when rendered to three decimals, not the 750.106 the
claim states. -/
theorem run_scenario_calories_ne_claimed :
    (read_package "RUN" [15000, 1, 75]).bind Training.show_training_info
        = Except.ok ⟨"Running", 1, 39 / 4, 39 / 4, 159561 / 200⟩ ∧
    formatFix3 (159561 / 200) = "797.805" ∧
    ("797.805" : String) ≠ "750.106" :=
  ⟨run_info_eval, formatFix3_run_calories, by decide⟩

/-- C6 (amended): on input `("RUN", [15000, 1, 75])` the record yields
distance 9.750, mean speed 9.750 and spent calories 797.805 as rendered to
three decimals. -/
theorem run_scenario_values :
    (read_package "RUN" [15000, 1, 75]).bind Training.show_training_info
        = Except.ok ⟨"Running", 1, 39 / 4, 39 / 4, 159561 / 200⟩ ∧
    formatFix3 (39 / 4) = "9.750" ∧
    formatFix3 (159561 / 200) = "797.805" :=
  ⟨run_info_eval, formatFix3_run_distance, formatFix3_run_calories⟩

/-- C7 counterexample: with `action = 0` (and `duration = 1 > 0`,
`weight = 75`, heights `2 > 1 > 0`) both SportsWalking records burn exactly
157.5 kcal, so the smaller height is not strictly greater. -/
theorem walking_height_monotonicity_fails_at_zero_action :
    (Training.sportsWalking ⟨0, 1, 75⟩ 2).get_spent_calories = Except.ok (315 / 2) ∧
    (Training.sportsWalking ⟨0, 1, 75⟩ 1).get_spent_calories = Except.ok (315 / 2) ∧
    ¬ ((315 : ℚ) / 2 < 315 / 2) := by
  refine ⟨?_, ?_, by norm_num⟩ <;>
  · simp [Training.get_spent_calories, Training.get_mean_speed, Training.get_distance,
      Training.LEN_STEP, Training.core, WEIGHT_COEF1, WEIGHT_COEF2, M_TO_SM, M_IN_KM,
      MIN_IN_HOUR, COEF_KMH_MS]
    norm_num

/-- C7 (amended): for SportsWalking records agreeing on action, duration and
weight, with `action ≠ 0`, `weight > 0`, `duration > 0` and heights
`h1 > h2 > 0`, the record with the smaller height burns strictly more
calories. -/
theorem walking_calories_height_strict (a d w h1 h2 : ℚ)
    (ha : a ≠ 0) (hw : 0 < w) (hd : 0 < d) (hh2 : 0 < h2) (hh : h2 < h1) :
    ∃ c1 c2,
      (Training.sportsWalking ⟨a, d, w⟩ h1).get_spent_calories = Except.ok c1 ∧
      (Training.sportsWalking ⟨a, d, w⟩ h2).get_spent_calories = Except.ok c2 ∧
      c1 < c2 := by
  refine ⟨(35 / 1000 * w + ((a * (65 / 100) / 1000 / d * (278 / 1000)) ^ 2
        / (h1 / 100)) * (29 / 1000) * w) * d * 60,
    (35 / 1000 * w + ((a * (65 / 100) / 1000 / d * (278 / 1000)) ^ 2
        / (h2 / 100)) * (29 / 1000) * w) * d * 60, rfl, rfl, ?_⟩
  set s : ℚ := a * (65 / 100) / 1000 / d * (278 / 1000) with hs
  have hsne : s ≠ 0 :=
    mul_ne_zero (div_ne_zero (div_ne_zero (mul_ne_zero ha (by norm_num))
      (by norm_num)) (ne_of_gt hd)) (by norm_num)
  have hs2 : 0 < s ^ 2 := lt_of_le_of_ne (sq_nonneg s) (Ne.symm (pow_ne_zero 2 hsne))
  have hfrac : s ^ 2 / (h1 / 100) < s ^ 2 / (h2 / 100) :=
    div_lt_div_of_pos_left hs2 (by positivity) (by linarith)
  have key : 0 < (s ^ 2 / (h2 / 100) - s ^ 2 / (h1 / 100)) * w * d :=
    mul_pos (mul_pos (sub_pos.mpr hfrac) hw) hd
  nlinarith [key]

theorem walking_calories_height_strict_witness :
    (9000 : ℚ) ≠ 0 ∧ (0 : ℚ) < 75 ∧ (0 : ℚ) < 1 ∧ (0 : ℚ) < 90 ∧ (90 : ℚ) < 180 ∧
    ∃ c1 c2,
      (Training.sportsWalking ⟨9000, 1, 75⟩ 180).get_spent_calories = Except.ok c1 ∧
      (Training.sportsWalking ⟨9000, 1, 75⟩ 90).get_spent_calories = Except.ok c2 ∧
      c1 < c2 :=
  ⟨by norm_num, by norm_num, by norm_num, by norm_num, by norm_num,
    walking_calories_height_strict 9000 1 75 180 90
      (by norm_num) (by norm_num) (by norm_num) (by norm_num) (by norm_num)⟩

/-- C8: calling `get_spent_calories` on a bare base-class record raises
`NotImplementedError` for every `(action, duration, weight)` and never
returns a numeric result. -/
theorem base_calories_raises (b : TrainingBase) :
    (Training.base b).get_spent_calories
        = Except.error (PyError.notImplementedError
            ("Метод get_spent_calories не был переопределен в классе " ++ "Training")) ∧
    ∀ c : ℚ, (Training.base b).get_spent_calories ≠ Except.ok c := by
  refine ⟨rfl, fun c hcontra => ?_⟩
  exact Except.noConfusion hcontra

theorem base_calories_raises_witness :
    (Training.base ⟨15000, 1, 75⟩).get_spent_calories
        = Except.error (PyError.notImplementedError
            ("Метод get_spent_calories не был переопределен в классе " ++ "Training")) ∧
    (Training.base ⟨15000, 1, 75⟩).get_spent_calories ≠ Except.ok (159561 / 200) :=
  ⟨(base_calories_raises ⟨15000, 1, 75⟩).1,
    (base_calories_raises ⟨15000, 1, 75⟩).2 (159561 / 200)⟩

/-- C9: the pipeline is deterministic — repeated runs of dispatch,
summarising and formatting on the same `(code, args)` give equal results
(the embedding of the source is a pure function of its inputs), and on
`("RUN", [15000, 1, 75])` it always produces the one formatted line. -/
theorem pipeline_deterministic :
    (∀ code : String, ∀ data : List ℚ, pipeline code data = pipeline code data) ∧
    (∀ t : Training, t.show_training_info = t.show_training_info) ∧
    (∀ m : InfoMessage, m.get_message = m.get_message) ∧
    pipeline "RUN" [15000, 1, 75]
      = Except.ok "Тип тренировки: Running; Длительность: 1.000 ч.; Дистанция: 9.750 км; Ср. скорость: 9.750 км/ч; Потрачено ккал: 797.805." := by
  refine ⟨fun code data => rfl, fun t => rfl, fun m => rfl, ?_⟩
  have h1 : pipeline "RUN" [15000, 1, 75]
      = Except.ok (InfoMessage.get_message ⟨"Running", 1, 39 / 4, 39 / 4, 159561 / 200⟩) := by
    show main_line (Training.running ⟨15000, 1, 75⟩)
      = Except.ok (InfoMessage.get_message ⟨"Running", 1, 39 / 4, 39 / 4, 159561 / 200⟩)
    rw [main_line, run_info_eval]
    rfl
  rw [h1, run_message_eval]

/-- C10: for Swimming, stroke-based `get_distance` and pool-based
`get_mean_speed * duration` disagree: at `(action 720, duration 1, pool
25 m × 40)` they are 0.9936 km and 1 km. -/
theorem swimming_two_distances_disagree :
    (Training.swimming ⟨720, 1, 80⟩ 25 40).get_distance = 621 / 625 ∧
    (Training.swimming ⟨720, 1, 80⟩ 25 40).get_mean_speed
        * (Training.swimming ⟨720, 1, 80⟩ 25 40).core.duration = 1 ∧
    (Training.swimming ⟨720, 1, 80⟩ 25 40).get_distance
      ≠ (Training.swimming ⟨720, 1, 80⟩ 25 40).get_mean_speed
          * (Training.swimming ⟨720, 1, 80⟩ 25 40).core.duration := by
  have h1 : (Training.swimming ⟨720, 1, 80⟩ 25 40).get_distance = 621 / 625 := by
    simp [Training.get_distance, Training.LEN_STEP, Training.core, M_IN_KM]
    norm_num
  have h2 : (Training.swimming ⟨720, 1, 80⟩ 25 40).get_mean_speed
      * (Training.swimming ⟨720, 1, 80⟩ 25 40).core.duration = 1 := by
    simp [Training.get_mean_speed, Training.core, M_IN_KM]
    norm_num
  refine ⟨h1, h2, ?_⟩
  rw [h1, h2]
  norm_num

end Homework
